import Mathlib

/-!
Verification of the TasksAI backend core: the labeling lifecycle state
machine (`app/services/background_tasks.py`, `app/agents/labeling_agent.py`)
and the context-matching / scoring engine
(`app/services/recommendation_service.py`).

Python floats are modelled as exact rationals (ℚ), Python lists as `List`,
`None`-able values as `Option`, and raised exceptions as `Except` results of
the stubbed collaborators.  Python `sorted(..., key=k, reverse=True)` is a
stable descending sort; it is embedded as a merge sort on position-indexed
elements ordered lexicographically by (key descending, original position
ascending), which is exactly the function a stable descending sort computes.
-/

namespace TasksAI

/-- `TaskStatus` enumeration from `app/models/task.py`. -/
inductive TaskStatus where
  | todo
  | in_progress
  | completed
  | cancelled
deriving DecidableEq, Repr

/-- `LabelingStatus` enumeration from `app/models/task.py`. -/
inductive LabelingStatus where
  | pending
  | in_progress
  | completed
  | failed
deriving DecidableEq, Repr

/-- `LabelCategory` enumeration from `app/models/task.py`: the fixed
12-value taxonomy. -/
inductive LabelCategory where
  | location
  | time
  | energy
  | duration
  | mood
  | category
  | prerequisites
  | context
  | tools
  | people
  | weather
  | other
deriving DecidableEq, Repr

/-- Modelled from the spec: `GeneratedLabel` of `app/schemas/label.py`
(the schema file itself is not under `src/`; its fields are the ones read by
`labeling_agent.py` and `background_tasks.py`): name, category from the
fixed taxonomy, confidence in [0,1], free-text reasoning. -/
structure GeneratedLabel where
  label_name : String
  category : LabelCategory
  confidence : ℚ
  reasoning : String
deriving DecidableEq, Repr

/-- Modelled from the spec: `TaskLabelingOutput` of `app/schemas/label.py`
(fields as read by `background_tasks.py`): the generated batch plus the
per-run summary and external factors considered. -/
structure TaskLabelingOutput where
  task_id : Nat
  labels : List GeneratedLabel
  summary : String
  external_factors_considered : List String
deriving DecidableEq, Repr

/-- The JSON `label_metadata` document attached to every stored label by
`background_tasks.py` (lines 89-92). -/
structure LabelMeta where
  external_factors : List String
  summary : String
deriving DecidableEq, Repr

/-- Persisted `TaskLabel` row from `app/models/task.py`. -/
structure TaskLabel where
  task_id : Nat
  label_name : String
  label_category : LabelCategory
  confidence_score : ℚ
  is_primary : Bool
  is_user_edited : Bool := false
  original_label : Option String := none
  reasoning : String
  label_metadata : Option LabelMeta
deriving DecidableEq, Repr

/-- `ExtractedContext` from `app/schemas/recommendation.py`: five optional
string fields plus a list of other free-form labels (default empty). -/
structure ExtractedContext where
  location : Option String := none
  time_of_day : Option String := none
  energy_level : Option String := none
  mood : Option String := none
  duration_available : Option String := none
  other_labels : List String := []
deriving DecidableEq, Repr

/-- A `Task` row from `app/models/task.py`, restricted to the fields the
recommendation query and scoring read.  The ORM model has no `user_id`
column; the `user_id` field here models the database column added by
`migrate_add_user_id.py` (owner of the task), which the ORM — and hence
every query in `recommendation_service.py` — never reads or filters on. -/
structure Task where
  id : Nat
  user_id : Nat
  is_active : Bool
  status : TaskStatus
  labels : List TaskLabel
deriving DecidableEq, Repr

/-- The labeling-relevant state of one task row, as read and written by
`BackgroundLabelingService.process_task_labeling`. -/
structure TaskState where
  id : Nat
  labels : List TaskLabel
  labeling_status : LabelingStatus
  labeling_error : Option String := none
  labeling_attempted_at : Option Nat := none
  labeling_completed_at : Option Nat := none
deriving DecidableEq, Repr

/-! ## Scoring engine (`RecommendationService.calculate_label_match_score`) -/

/-- Python `str.lower()`: lowercase every character.  (Lean's own
`String.toLower` is the same function but is defined by well-founded
recursion and does not evaluate in the kernel, so the per-character map
is used directly.) -/
def pyLower (s : String) : String :=
  ⟨s.data.map Char.toLower⟩

/-- Lines 95-107 of `recommendation_service.py`: flatten the extracted
context into the ordered candidate list — location, time_of_day,
energy_level, mood, duration_available, then the other labels. -/
def contextLabels (uc : ExtractedContext) : List String :=
  uc.location.toList ++ uc.time_of_day.toList ++ uc.energy_level.toList ++
    uc.mood.toList ++ uc.duration_available.toList ++ uc.other_labels

/-- Lines 119-124 of `recommendation_service.py`: the nested loop over
(context string, task label) pairs, kept in loop order; a pair is retained
when the names are case-insensitively equal. -/
def matchedPairs (task_labels : List TaskLabel) (user_labels : List String) :
    List (String × TaskLabel) :=
  user_labels.flatMap fun u =>
    (task_labels.filter fun t => pyLower u == pyLower t.label_name).map fun t => (u, t)

/-- `RecommendationService.calculate_label_match_score`
(`recommendation_service.py` lines 84-143): returns the match score and
the (non-deduplicated) list of matched context strings. -/
def calculate_label_match_score (task_labels : List TaskLabel)
    (user_context : ExtractedContext) : ℚ × List String :=
  let user_labels := contextLabels user_context
  if user_labels.isEmpty then (0.0, [])
  else
    let pairs := matchedPairs task_labels user_labels
    let matching_labels := pairs.map Prod.fst
    let weighted_score : ℚ := (pairs.map fun p => p.2.confidence_score).sum
    if matching_labels.isEmpty then (0.0, matching_labels)
    else
      let match_percentage : ℚ := (matching_labels.length : ℚ) / (user_labels.length : ℚ)
      let avg_confidence : ℚ := weighted_score / (matching_labels.length : ℚ)
      let match_bonus : ℚ := min 0.3 ((matching_labels.length : ℚ) * 0.1)
      (min 1.0 (match_percentage * 0.4 + avg_confidence * 0.5 + match_bonus),
        matching_labels)

/-- Spec-side quantity: matchedCount — the number of (context string, task
label) pairs with case-insensitively equal names. -/
def specMatchedCount (task_labels : List TaskLabel) (uc : ExtractedContext) : Nat :=
  ((contextLabels uc).map fun u =>
    (task_labels.filter fun t => pyLower u == pyLower t.label_name).length).sum

/-- Spec-side quantity: accumulatedConfidence — the sum, over all matched
(context string, task label) pairs, of the matched label's confidence. -/
def specAccumConfidence (task_labels : List TaskLabel) (uc : ExtractedContext) : ℚ :=
  ((contextLabels uc).map fun u =>
    ((task_labels.filter fun t => pyLower u == pyLower t.label_name).map
      fun t => t.confidence_score).sum).sum

/-! ## Stable descending sort

Python's `sorted(xs, key=k, reverse=True)` (used at `background_tasks.py`
lines 74-78 and, via `list.sort`, `recommendation_service.py` line 270) is a
stable descending sort.  Its result is the unique permutation ordered
lexicographically by (key descending, original position ascending), so it is
embedded as a merge sort on position-indexed elements under that order. -/

/-- The total order used by the embedding of Python's stable descending
sort: key strictly greater first, equal keys in original position order. -/
def pyLe {α : Type} (key : α → ℚ) (a b : Nat × α) : Bool :=
  decide (key b.2 < key a.2 ∨ (key a.2 = key b.2 ∧ a.1 ≤ b.1))

/-- Stable descending sort, keeping the original positions. -/
def pySortIdx {α : Type} (key : α → ℚ) (l : List α) : List (Nat × α) :=
  l.enum.mergeSort (pyLe key)

/-- Python `sorted(l, key=key, reverse=True)`. -/
def pySortDesc {α : Type} (key : α → ℚ) (l : List α) : List α :=
  (pySortIdx key l).map Prod.snd

/-! ## Labeling validation (`LabelingAgent.validate_labels`) -/

/-- `LabelingAgent.validate_labels` (`labeling_agent.py` lines 262-277):
at least 6 labels, at least 3 distinct categories, every confidence in
[0,1]. -/
def validate_labels (labels : List GeneratedLabel) : Bool :=
  if labels.length < 6 then false
  else if (labels.map (·.category)).dedup.length < 3 then false
  else labels.all fun l => decide (0 ≤ l.confidence) && decide (l.confidence ≤ 1)

/-! ## Label persistence & ranking (`process_task_labeling` lines 70-94) -/

/-- Python `s[:n]`: the first `n` characters of a string. -/
def pyTruncate (n : Nat) (s : String) : String :=
  ⟨s.data.take n⟩

/-- The `for idx, generated_label in enumerate(sorted_labels)` loop of
`background_tasks.py` lines 81-94: build one `TaskLabel` row per generated
label, `is_primary` iff the running index is below 5, with the reasoning and
the per-run metadata attached. -/
def labelRows (tid : Nat) (meta : LabelMeta) : Nat → List GeneratedLabel → List TaskLabel
  | _, [] => []
  | idx, g :: rest =>
    { task_id := tid, label_name := g.label_name, label_category := g.category,
      confidence_score := g.confidence, is_primary := decide (idx < 5),
      reasoning := g.reasoning, label_metadata := some meta } ::
      labelRows tid meta (idx + 1) rest

/-- Lines 73-94 of `background_tasks.py`: stable-sort the batch by
confidence descending, then store rows with the top 5 flagged primary. -/
def persistLabels (tid : Nat) (out : TaskLabelingOutput) : List TaskLabel :=
  labelRows tid
    { external_factors := out.external_factors_considered, summary := out.summary }
    0 (pySortDesc (fun g => g.confidence) out.labels)

/-! ## Labeling state machine (`BackgroundLabelingService.process_task_labeling`) -/

/-- Stubbed collaborator outcomes for one labeling run: the result of
awaiting `LabelingAgent.generate_labels` (an `Exception` message on
failure — `generate_labels` wraps LLM-call and JSON-parse failures into a
single raised exception) and the result of
`PineconeService.upsert_task_embedding`. -/
structure RunStub where
  genResult : Except String TaskLabelingOutput
  pineconeResult : Except String Unit
deriving Repr

/-- The validation `ValueError` message raised at `background_tasks.py`
line 68. -/
def validationErrorMessage : String :=
  "Generated labels did not meet validation requirements"

/-- `BackgroundLabelingService.process_task_labeling`
(`background_tasks.py` lines 28-129) over one task row (`none` when the
task id no longer resolves — the run is then a no-op).  `now` stands for
`datetime.utcnow()`. -/
def process_task_labeling (stub : RunStub) (now : Nat)
    (db : Option TaskState) : Option TaskState :=
  match db with
  | none => none
  | some task0 =>
    let task := { task0 with labeling_status := LabelingStatus.in_progress,
                             labeling_attempted_at := some now }
    match stub.genResult with
    | Except.error e =>
      some { task with labeling_status := LabelingStatus.failed,
                       labeling_error := some (pyTruncate 500 e) }
    | Except.ok output =>
      if validate_labels output.labels then
        let completed :=
          { task with labels := persistLabels task.id output,
                      labeling_status := LabelingStatus.completed,
                      labeling_completed_at := some now,
                      labeling_error := none }
        match stub.pineconeResult with
        | Except.ok _ => some completed
        | Except.error pe =>
          let warn := "Labels created but Pinecone failed: " ++ pyTruncate 200 pe
          some { completed with labeling_error := some warn }
      else
        some { task with labeling_status := LabelingStatus.failed,
                         labeling_error := some (pyTruncate 500 validationErrorMessage) }

/-- `BackgroundLabelingService.re_label_task` (`background_tasks.py` lines
131-143): same procedure as `process_task_labeling`. -/
def re_label_task (stub : RunStub) (now : Nat)
    (db : Option TaskState) : Option TaskState :=
  process_task_labeling stub now db

/-! ## Recommendation orchestrator (`RecommendationService.recommend_tasks`) -/

/-- One scored candidate (the dict appended at `recommendation_service.py`
lines 263-267). -/
structure ScoredTask where
  task : Task
  score : ℚ
  matching_labels : List String
deriving DecidableEq, Repr

/-- The candidate query of `recommend_tasks` (lines 246-249):
`Task.is_active == True, Task.status != TaskStatus.COMPLETED` — note that
it filters on nothing else (in particular not on any task owner). -/
def candidateTasks (tasks : List Task) : List Task :=
  tasks.filter fun t => t.is_active && decide (t.status ≠ TaskStatus.completed)

/-- The scoring loop of `recommend_tasks` (lines 252-267): skip tasks with
no labels, score the rest, keep only positive scores. -/
def scoredTasks (user_context : ExtractedContext) (tasks : List Task) :
    List ScoredTask :=
  (candidateTasks tasks).filterMap fun t =>
    if t.labels.isEmpty then none
    else
      let r := calculate_label_match_score t.labels user_context
      if 0 < r.1 then some { task := t, score := r.1, matching_labels := r.2 }
      else none

/-- `RecommendationService.recommend_tasks` (`recommendation_service.py`
lines 225-273), up to the pure ranking output: score the candidates, sort
by score descending (Python `list.sort` — stable), take the first `top_k`.
The per-task reasoning, suggestions and summary are LLM collaborator text
that decorates these entries and never adds or removes one.  The extracted
context is passed in as the outcome of the context-extraction collaborator
call.  Note the function has no user parameter: the source signature is
`(self, user_message, db, top_k)` and its query is not scoped to any
user. -/
def recommend_tasks (user_context : ExtractedContext) (tasks : List Task)
    (top_k : Nat) : List ScoredTask :=
  (pySortDesc (fun s => s.score) (scoredTasks user_context tasks)).take top_k

/-! ## Projections and concrete fixtures -/

/-- The generated-label content of a stored row (name, category,
confidence, reasoning). -/
def toGen (l : TaskLabel) : GeneratedLabel :=
  { label_name := l.label_name, category := l.label_category,
    confidence := l.confidence_score, reasoning := l.reasoning }

/-- A stored label "home" at confidence 0.9 (the worked example of the
spec). -/
def exHomeLabel : TaskLabel :=
  { task_id := 1, label_name := "home", label_category := LabelCategory.location,
    confidence_score := 9/10, is_primary := true, reasoning := "at home",
    label_metadata := none }

/-- A second stored label also named "home", at confidence 0.8. -/
def exHomeLabelB : TaskLabel :=
  { exHomeLabel with confidence_score := 4/5 }

/-- A stored label "office" at confidence 0.8. -/
def exOfficeLabel : TaskLabel :=
  { task_id := 2, label_name := "office", label_category := LabelCategory.location,
    confidence_score := 4/5, is_primary := true, reasoning := "at the office",
    label_metadata := none }

/-- Context with the single field "home". -/
def exHomeCtx : ExtractedContext := { location := some "home" }

/-- Context with the single field "office". -/
def exOfficeCtx : ExtractedContext := { location := some "office" }

/-- A six-label batch spanning six distinct categories, confidences in
[0,1]. -/
def exBatch : List GeneratedLabel :=
  [ { label_name := "home", category := LabelCategory.location,
      confidence := 9/10, reasoning := "r1" },
    { label_name := "morning", category := LabelCategory.time,
      confidence := 4/5, reasoning := "r2" },
    { label_name := "focused", category := LabelCategory.mood,
      confidence := 4/5, reasoning := "r3" },
    { label_name := "quick-5min", category := LabelCategory.duration,
      confidence := 3/5, reasoning := "r4" },
    { label_name := "laptop", category := LabelCategory.tools,
      confidence := 1/2, reasoning := "r5" },
    { label_name := "solo", category := LabelCategory.people,
      confidence := 2/5, reasoning := "r6" } ]

/-- A labeling output carrying `exBatch`. -/
def exOut : TaskLabelingOutput :=
  { task_id := 1, labels := exBatch, summary := "analysis",
    external_factors_considered := ["time-of-day"] }

/-- A labeling output whose batch is only the first 4 labels of `exBatch`
(fails validation). -/
def exOutBad : TaskLabelingOutput :=
  { task_id := 1, labels := exBatch.take 4, summary := "analysis",
    external_factors_considered := ["time-of-day"] }

/-- Run stub: the LLM/parse step raised. -/
def exStubGenFail : RunStub :=
  { genResult := Except.error "Failed to generate labels: upstream timeout",
    pineconeResult := Except.ok () }

/-- Run stub: generation succeeded, embedding sync succeeded. -/
def exStubOk : RunStub :=
  { genResult := Except.ok exOut, pineconeResult := Except.ok () }

/-- Run stub: generation succeeded, embedding sync raised. -/
def exStubPineFail : RunStub :=
  { genResult := Except.ok exOut, pineconeResult := Except.error "index down" }

/-- Run stub: generation returned an invalid (4-label) batch. -/
def exStubInvalid : RunStub :=
  { genResult := Except.ok exOutBad, pineconeResult := Except.ok () }

/-- A task state with one previously stored label. -/
def exTaskState : TaskState :=
  { id := 1, labels := [exHomeLabel], labeling_status := LabelingStatus.completed }

/-- The generation-failure message of `exStubGenFail`, truncated. -/
def exGenFailMessage : String :=
  pyTruncate 500 "Failed to generate labels: upstream timeout"

/-- The embedding-failure warning written by a run with `exStubPineFail`. -/
def exPineWarning : String :=
  "Labels created but Pinecone failed: " ++ pyTruncate 200 "index down"

/-- The state produced by a failing-generation run on `exTaskState`. -/
def exGenFailState : TaskState :=
  { exTaskState with
    labeling_status := LabelingStatus.failed,
    labeling_attempted_at := some 0,
    labeling_error := some exGenFailMessage }

/-- The state produced on `exTaskState` by a run whose embedding sync
fails after a successful persist. -/
def exPineFailState : TaskState :=
  { exTaskState with
    labels := persistLabels 1 exOut,
    labeling_status := LabelingStatus.completed,
    labeling_attempted_at := some 0,
    labeling_completed_at := some 0,
    labeling_error := some exPineWarning }

/-- An active todo task owned by user 1, with no labels yet. -/
def exTaskMine : Task :=
  { id := 1, user_id := 1, is_active := true, status := TaskStatus.todo,
    labels := [] }

/-- An active todo task owned by user 2, labeled "office". -/
def exTaskOther : Task :=
  { id := 2, user_id := 2, is_active := true, status := TaskStatus.todo,
    labels := [exOfficeLabel] }

/-- An active, labeled todo task owned by user 1, with task id `i`. -/
def exCandidate (i : Nat) : Task :=
  { id := i, user_id := 1, is_active := true, status := TaskStatus.todo,
    labels := [exOfficeLabel] }

/-- Ten scoreable candidate tasks. -/
def exTasks10 : List Task :=
  [exCandidate 0, exCandidate 1, exCandidate 2, exCandidate 3, exCandidate 4,
   exCandidate 5, exCandidate 6, exCandidate 7, exCandidate 8, exCandidate 9]

/-! ## Properties of the stable descending sort -/

theorem pyLe_trans {α : Type} (key : α → ℚ) :
    ∀ a b c : Nat × α, pyLe key a b → pyLe key b c → pyLe key a c := by
  intro a b c hab hbc
  simp only [pyLe, decide_eq_true_eq] at *
  rcases hab with h1 | ⟨h1e, h1i⟩ <;> rcases hbc with h2 | ⟨h2e, h2i⟩
  · exact Or.inl (h2.trans h1)
  · exact Or.inl (h2e ▸ h1)
  · exact Or.inl (h1e ▸ h2)
  · exact Or.inr ⟨h1e.trans h2e, h1i.trans h2i⟩

theorem pyLe_total {α : Type} (key : α → ℚ) :
    ∀ a b : Nat × α, pyLe key a b || pyLe key b a := by
  intro a b
  simp only [pyLe, Bool.or_eq_true, decide_eq_true_eq]
  rcases lt_trichotomy (key a.2) (key b.2) with h | h | h
  · exact Or.inr (Or.inl h)
  · rcases Nat.le_total a.1 b.1 with hi | hi
    · exact Or.inl (Or.inr ⟨h, hi⟩)
    · exact Or.inr (Or.inr ⟨h.symm, hi⟩)
  · exact Or.inl (Or.inl h)

theorem pySortIdx_perm {α : Type} (key : α → ℚ) (l : List α) :
    (pySortIdx key l).Perm l.enum :=
  List.mergeSort_perm l.enum (pyLe key)

theorem pySortDesc_perm {α : Type} (key : α → ℚ) (l : List α) :
    (pySortDesc key l).Perm l := by
  have h := (pySortIdx_perm key l).map Prod.snd
  rwa [List.enum_map_snd] at h

theorem pySortIdx_pairwise {α : Type} (key : α → ℚ) (l : List α) :
    (pySortIdx key l).Pairwise fun a b =>
      key b.2 ≤ key a.2 ∧ (key a.2 = key b.2 → a.1 < b.1) := by
  have hle : (pySortIdx key l).Pairwise fun a b => pyLe key a b = true :=
    List.sorted_mergeSort (pyLe_trans key) (pyLe_total key) l.enum
  have hnd : (pySortIdx key l).Pairwise fun a b : Nat × α => a.1 ≠ b.1 := by
    have hperm := (pySortIdx_perm key l).map Prod.fst
    rw [List.enum_map_fst] at hperm
    have : ((pySortIdx key l).map Prod.fst).Nodup :=
      hperm.nodup_iff.mpr (List.nodup_range _)
    exact List.pairwise_map.mp this
  refine (hle.and hnd).imp ?_
  rintro a b ⟨hab, hne⟩
  simp only [pyLe, decide_eq_true_eq] at hab
  rcases hab with h | ⟨he, hi⟩
  · exact ⟨le_of_lt h, fun hc => absurd (hc ▸ h) (lt_irrefl _)⟩
  · exact ⟨le_of_eq he.symm, fun _ => lt_of_le_of_ne hi hne⟩

theorem pySortDesc_sorted {α : Type} (key : α → ℚ) (l : List α) :
    (pySortDesc key l).Pairwise fun a b => key b ≤ key a :=
  List.pairwise_map.mpr ((pySortIdx_pairwise key l).imp fun h => h.1)

theorem pySortIdx_filter_eq {α : Type} (key : α → ℚ) (l : List α) (c : ℚ) :
    (pySortIdx key l).filter (fun p => decide (key p.2 = c)) =
      l.enum.filter (fun p => decide (key p.2 = c)) := by
  haveI : IsAntisymm (Nat × α) (fun a b => a.1 < b.1) :=
    ⟨fun a b h1 h2 => absurd (h1.trans h2) (lt_irrefl _)⟩
  have henum : l.enum.Pairwise fun a b : Nat × α => a.1 < b.1 := by
    have : (l.enum.map Prod.fst).Pairwise (· < ·) := by
      rw [List.enum_map_fst]; exact List.pairwise_lt_range _
    exact List.pairwise_map.mp this
  refine List.eq_of_perm_of_sorted (r := fun a b : Nat × α => a.1 < b.1)
    ((pySortIdx_perm key l).filter _) ?_ (henum.filter _)
  have h := (pySortIdx_pairwise key l).filter (fun p => decide (key p.2 = c))
  refine List.Pairwise.imp_of_mem ?_ h
  intro a b ha hb hR
  have hac : key a.2 = c := by
    have := List.of_mem_filter ha; simpa using this
  have hbc : key b.2 = c := by
    have := List.of_mem_filter hb; simpa using this
  exact hR.2 (hac.trans hbc.symm)

theorem pySortDesc_filter_eq {α : Type} (key : α → ℚ) (l : List α) (c : ℚ) :
    (pySortDesc key l).filter (fun a => decide (key a = c)) =
      l.filter (fun a => decide (key a = c)) := by
  have h1 : (pySortDesc key l).filter (fun a => decide (key a = c)) =
      ((pySortIdx key l).filter (fun p => decide (key p.2 = c))).map Prod.snd := by
    rw [pySortDesc, List.filter_map]; rfl
  have h2 : l.filter (fun a => decide (key a = c)) =
      (l.enum.filter (fun p => decide (key p.2 = c))).map Prod.snd := by
    conv_lhs => rw [← List.enum_map_snd l]
    rw [List.filter_map]; rfl
  rw [h1, h2, pySortIdx_filter_eq]

theorem pySortDesc_take_optimal {α : Type} (key : α → ℚ) (l : List α) (k : Nat) :
    ∀ y ∈ l, y ∈ (pySortDesc key l).take k ∨
      ∀ x ∈ (pySortDesc key l).take k, key y ≤ key x := by
  intro y hy
  have hmem : y ∈ pySortDesc key l := (pySortDesc_perm key l).symm.subset hy
  rw [← List.take_append_drop k (pySortDesc key l), List.mem_append] at hmem
  rcases hmem with h | h
  · exact Or.inl h
  · right
    intro x hx
    have hp := pySortDesc_sorted key l
    rw [← List.take_append_drop k (pySortDesc key l), List.pairwise_append] at hp
    exact hp.2.2 x hx y h

/-! ## Properties of the scoring loop -/

theorem matchedPairs_length (tl : List TaskLabel) (ul : List String) :
    (matchedPairs tl ul).length =
      (ul.map fun u =>
        (tl.filter fun t => pyLower u == pyLower t.label_name).length).sum := by
  induction ul with
  | nil => simp [matchedPairs]
  | cons u us ih => simp [matchedPairs, List.flatMap_cons] at ih ⊢; omega

theorem matchedPairs_conf_sum (tl : List TaskLabel) (ul : List String) :
    ((matchedPairs tl ul).map fun p => p.2.confidence_score).sum =
      (ul.map fun u =>
        ((tl.filter fun t => pyLower u == pyLower t.label_name).map
          fun t => t.confidence_score).sum).sum := by
  induction ul with
  | nil => simp [matchedPairs]
  | cons u us ih =>
    simp only [matchedPairs, List.flatMap_cons, List.map_append, List.map_map,
      List.sum_append, List.map_cons, List.sum_cons] at ih ⊢
    rw [ih]
    rfl

theorem matchedPairs_mem (tl : List TaskLabel) (ul : List String) :
    ∀ p ∈ matchedPairs tl ul, p.2 ∈ tl := by
  intro p hp
  simp only [matchedPairs, List.mem_flatMap, List.mem_map] at hp
  obtain ⟨u, _, t, ht, rfl⟩ := hp
  exact (List.mem_filter.mp ht).1

theorem specMatchedCount_eq (tl : List TaskLabel) (uc : ExtractedContext) :
    specMatchedCount tl uc = (matchedPairs tl (contextLabels uc)).length :=
  (matchedPairs_length tl (contextLabels uc)).symm

theorem specAccumConfidence_eq (tl : List TaskLabel) (uc : ExtractedContext) :
    specAccumConfidence tl uc =
      ((matchedPairs tl (contextLabels uc)).map fun p => p.2.confidence_score).sum :=
  (matchedPairs_conf_sum tl (contextLabels uc)).symm

/-! ## Claim theorems: scoring engine -/

/-- C1: whenever the flattened context is non-empty and at least one
(context string, task label) pair matches case-insensitively, the Match
Scoring Engine returns
min(1, matchedCount/totalContext × 0.4 + accumulatedConfidence/matchedCount
× 0.5 + min(0.3, matchedCount × 0.1)), where matchedCount counts the
matched pairs and accumulatedConfidence sums the matched labels'
confidences. -/
theorem C1_match_score_formula (tl : List TaskLabel) (uc : ExtractedContext)
    (hne : contextLabels uc ≠ []) (hm : 0 < specMatchedCount tl uc) :
    (calculate_label_match_score tl uc).1 =
      min 1 ((specMatchedCount tl uc : ℚ) / ((contextLabels uc).length : ℚ) * 0.4 +
        specAccumConfidence tl uc / (specMatchedCount tl uc : ℚ) * 0.5 +
        min 0.3 ((specMatchedCount tl uc : ℚ) * 0.1)) := by
  have hempF : (contextLabels uc).isEmpty = false := by
    simpa [List.isEmpty_iff] using hne
  have hpne : matchedPairs tl (contextLabels uc) ≠ [] := by
    intro h
    rw [specMatchedCount_eq, h] at hm
    exact absurd hm (by simp)
  have hmlF : ((matchedPairs tl (contextLabels uc)).map Prod.fst).isEmpty = false := by
    simpa [List.isEmpty_iff] using hpne
  simp only [calculate_label_match_score, hempF, hmlF, Bool.false_eq_true,
    if_false, List.length_map]
  rw [← specMatchedCount_eq, ← specAccumConfidence_eq]
  norm_num

/-- C1 witness: a context with the single field "home" matching one task
label "home" at confidence 0.9 scores 0.95. -/
theorem C1_match_score_formula_witness :
    (calculate_label_match_score [exHomeLabel] exHomeCtx).1 = 0.95 := by
  have h := C1_match_score_formula [exHomeLabel] exHomeCtx (by decide) (by decide)
  rw [h]
  norm_num [specMatchedCount, specAccumConfidence, contextLabels, exHomeCtx,
    exHomeLabel, pyLower]

/-- C2: an empty flattened context scores 0 with an empty match list, and a
non-empty context with zero case-insensitive matches also scores exactly 0
with an empty match list, whatever the labels' confidences. -/
theorem C2_no_overlap_zero_score (tl : List TaskLabel) (uc : ExtractedContext) :
    (contextLabels uc = [] → calculate_label_match_score tl uc = (0, [])) ∧
    (specMatchedCount tl uc = 0 → calculate_label_match_score tl uc = (0, [])) := by
  constructor
  · intro h
    norm_num [calculate_label_match_score, h]
  · intro h
    rw [specMatchedCount_eq] at h
    have hp : matchedPairs tl (contextLabels uc) = [] := List.length_eq_zero.mp h
    rcases hemp : (contextLabels uc).isEmpty with hF | hT
    · norm_num [calculate_label_match_score, hemp, hp]
    · norm_num [calculate_label_match_score, hemp]

/-- C2 witness: the label "home" (confidence 0.9) against the single
context field "office": score 0, no matches. -/
theorem C2_no_overlap_zero_score_witness :
    calculate_label_match_score [exHomeLabel] exOfficeCtx = (0, []) :=
  (C2_no_overlap_zero_score [exHomeLabel] exOfficeCtx).2 (by decide)

/-- C10: for confidences in [0,1] the scoring engine always returns a
score in [0,1] — also when one context string matches several task labels
so that matchedCount exceeds totalContext. -/
theorem C10_score_in_range (tl : List TaskLabel) (uc : ExtractedContext)
    (hc : ∀ l ∈ tl, 0 ≤ l.confidence_score ∧ l.confidence_score ≤ 1) :
    0 ≤ (calculate_label_match_score tl uc).1 ∧
      (calculate_label_match_score tl uc).1 ≤ 1 := by
  rcases hemp : (contextLabels uc).isEmpty with hF | hT
  swap
  · norm_num [calculate_label_match_score, hemp]
  rcases hml : ((matchedPairs tl (contextLabels uc)).map Prod.fst).isEmpty with hF2 | hT2
  swap
  · norm_num [calculate_label_match_score, hemp, hml]
  simp only [calculate_label_match_score, hemp, hml, Bool.false_eq_true, if_false,
    List.length_map]
  constructor
  · apply le_min
    · norm_num
    · have h1 : (0:ℚ) ≤ ((matchedPairs tl (contextLabels uc)).length : ℚ) /
          ((contextLabels uc).length : ℚ) :=
        div_nonneg (by positivity) (by positivity)
      have h2 : (0:ℚ) ≤
          ((matchedPairs tl (contextLabels uc)).map fun p => p.2.confidence_score).sum := by
        apply List.sum_nonneg
        intro x hx
        obtain ⟨p, hp, rfl⟩ := List.mem_map.mp hx
        exact (hc p.2 (matchedPairs_mem tl (contextLabels uc) p hp)).1
      have h3 : (0:ℚ) ≤
          ((matchedPairs tl (contextLabels uc)).map fun p => p.2.confidence_score).sum /
            ((matchedPairs tl (contextLabels uc)).length : ℚ) :=
        div_nonneg h2 (by positivity)
      have h4 : (0:ℚ) ≤ min 0.3 (((matchedPairs tl (contextLabels uc)).length : ℚ) * 0.1) := by
        apply le_min <;> positivity
      have h5 : (0:ℚ) ≤ 0.4 := by norm_num
      have h6 : (0:ℚ) ≤ 0.5 := by norm_num
      nlinarith [mul_nonneg h1 h5, mul_nonneg h3 h6]
  · exact le_trans (min_le_left _ _) (by norm_num)

/-- C10 witness: one context field "home" matching two task labels (the
uncapped sum exceeds 1); the score still lies in [0,1]. -/
theorem C10_score_in_range_witness :
    0 ≤ (calculate_label_match_score [exHomeLabel, exHomeLabelB] exHomeCtx).1 ∧
      (calculate_label_match_score [exHomeLabel, exHomeLabelB] exHomeCtx).1 ≤ 1 := by
  apply C10_score_in_range
  intro l hl
  rcases List.mem_cons.mp hl with rfl | hl
  · norm_num [exHomeLabel]
  rcases List.mem_cons.mp hl with rfl | hl
  · norm_num [exHomeLabelB, exHomeLabel]
  · cases hl

/-! ## Claim theorems: validation -/

/-- C3: a batch passes `validate_labels` iff it has at least 6 labels, at
least 3 distinct categories, and every confidence in [0,1]; and a batch
that fails validation fails the labeling run (terminal status `failed`). -/
theorem C3_validation_rule (labels : List GeneratedLabel) :
    (validate_labels labels = true ↔
      6 ≤ labels.length ∧ 3 ≤ (labels.map fun l => l.category).toFinset.card ∧
        ∀ l ∈ labels, 0 ≤ l.confidence ∧ l.confidence ≤ 1) ∧
    (∀ stub now task out, stub.genResult = Except.ok out →
      validate_labels out.labels = false →
      ∃ s, process_task_labeling stub now (some task) = some s ∧
        s.labeling_status = LabelingStatus.failed) := by
  constructor
  · unfold validate_labels
    rw [List.card_toFinset]
    split_ifs with h1 h2
    · refine ⟨fun h => absurd h (by simp), fun h => absurd h.1 (by omega)⟩
    · refine ⟨fun h => absurd h (by simp), fun h => absurd h.2.1 (by omega)⟩
    · simp only [List.all_eq_true, Bool.and_eq_true, decide_eq_true_eq]
      constructor
      · intro h
        exact ⟨by omega, by omega, h⟩
      · intro h
        exact h.2.2
  · intro stub now task out hg hv
    simp only [process_task_labeling, hg, hv, Bool.false_eq_true, if_false]
    exact ⟨_, rfl, rfl⟩

/-- C3 witness: a 6-label, 6-category batch with confidences in [0,1]
passes; a 4-label batch makes the run end `failed`. -/
theorem C3_validation_rule_witness :
    validate_labels exBatch = true ∧
      ∃ s, process_task_labeling exStubInvalid 0 (some exTaskState) = some s ∧
        s.labeling_status = LabelingStatus.failed := by
  constructor
  · apply (C3_validation_rule exBatch).1.mpr
    refine ⟨by decide, by decide, ?_⟩
    intro l hl
    rcases List.mem_cons.mp hl with rfl | hl
    · norm_num [exBatch]
    rcases List.mem_cons.mp hl with rfl | hl
    · norm_num [exBatch]
    rcases List.mem_cons.mp hl with rfl | hl
    · norm_num [exBatch]
    rcases List.mem_cons.mp hl with rfl | hl
    · norm_num [exBatch]
    rcases List.mem_cons.mp hl with rfl | hl
    · norm_num [exBatch]
    rcases List.mem_cons.mp hl with rfl | hl
    · norm_num [exBatch]
    · cases hl
  · exact (C3_validation_rule []).2 exStubInvalid 0 exTaskState exOutBad rfl (by decide)

/-! ## Properties of label persistence -/

theorem pyTruncate_length_le (n : Nat) (s : String) : (pyTruncate n s).length ≤ n := by
  show (s.data.take n).length ≤ n
  simp [List.length_take]

theorem labelRows_map_toGen (tid : Nat) (meta : LabelMeta) :
    ∀ (n : Nat) (ls : List GeneratedLabel), (labelRows tid meta n ls).map toGen = ls := by
  intro n ls
  induction ls generalizing n with
  | nil => simp [labelRows]
  | cons g rest ih => simp [labelRows, toGen, ih]

theorem labelRows_length (tid : Nat) (meta : LabelMeta) :
    ∀ (n : Nat) (ls : List GeneratedLabel),
      (labelRows tid meta n ls).length = ls.length := by
  intro n ls
  induction ls generalizing n with
  | nil => rfl
  | cons g rest ih => simp [labelRows, ih]

theorem labelRows_primary_count (tid : Nat) (meta : LabelMeta) :
    ∀ (ls : List GeneratedLabel) (n : Nat),
      ((labelRows tid meta n ls).filter fun l => l.is_primary).length =
        min (5 - n) ls.length := by
  intro ls
  induction ls with
  | nil => intro n; simp [labelRows]
  | cons g rest ih =>
    intro n
    by_cases h : n < 5
    · have hd : (decide (n < 5)) = true := by simpa using h
      simp only [labelRows, List.filter_cons, hd, if_true, List.length_cons, ih,
        List.length_cons]
      omega
    · have hd : (decide (n < 5)) = false := by simpa using h
      simp only [labelRows, List.filter_cons, hd, Bool.false_eq_true, if_false, ih,
        List.length_cons]
      omega

theorem labelRows_get_primary (tid : Nat) (meta : LabelMeta) :
    ∀ (ls : List GeneratedLabel) (n i : Nat) (h : i < (labelRows tid meta n ls).length),
      ((labelRows tid meta n ls).get ⟨i, h⟩).is_primary = decide (n + i < 5) := by
  intro ls
  induction ls with
  | nil => intro n i h; exact absurd h (by simp [labelRows])
  | cons g rest ih =>
    intro n i h
    match i with
    | 0 => simp [labelRows]
    | i + 1 =>
      have hrec := ih (n + 1) i (by simpa [labelRows] using h)
      simp only [labelRows, List.get_cons_succ]
      rw [hrec]
      have : n + 1 + i = n + (i + 1) := by omega
      rw [this]

theorem labelRows_meta (tid : Nat) (meta : LabelMeta) :
    ∀ (n : Nat) (ls : List GeneratedLabel),
      ∀ l ∈ labelRows tid meta n ls, l.label_metadata = some meta := by
  intro n ls
  induction ls generalizing n with
  | nil => intro l hl; cases hl
  | cons g rest ih =>
    intro l hl
    rcases List.mem_cons.mp hl with rfl | hl
    · rfl
    · exact ih (n + 1) l hl

/-! ## Claim theorems: persistence, state machine -/

/-- C4: for a validated batch, persistence stores the labels stably sorted
by confidence descending (ties in original batch order), marks exactly
min(5, batchSize) labels primary — the top 5 positions, hence the
top-5-by-confidence — and attaches the reasoning and per-run metadata to
every stored label. -/
theorem C4_persistence_ranking (tid : Nat) (out : TaskLabelingOutput)
    (_hv : validate_labels out.labels = true) :
    ((persistLabels tid out).map toGen).Perm out.labels ∧
    (persistLabels tid out).Pairwise
      (fun a b => b.confidence_score ≤ a.confidence_score) ∧
    (∀ c : ℚ, ((persistLabels tid out).map toGen).filter
        (fun g => decide (g.confidence = c)) =
      out.labels.filter (fun g => decide (g.confidence = c))) ∧
    (persistLabels tid out).length = out.labels.length ∧
    ((persistLabels tid out).filter fun l => l.is_primary).length =
      min 5 out.labels.length ∧
    (∀ (i : Nat) (h : i < (persistLabels tid out).length),
      ((persistLabels tid out).get ⟨i, h⟩).is_primary = decide (i < 5)) ∧
    (∀ a ∈ persistLabels tid out, ∀ b ∈ persistLabels tid out,
      a.is_primary = true → b.is_primary = false →
        b.confidence_score ≤ a.confidence_score) ∧
    (∀ l ∈ persistLabels tid out, l.label_metadata =
      some { external_factors := out.external_factors_considered,
             summary := out.summary }) := by
  have hmap : (persistLabels tid out).map toGen =
      pySortDesc (fun g => g.confidence) out.labels :=
    labelRows_map_toGen tid _ 0 _
  have hperm := pySortDesc_perm (fun g => g.confidence) out.labels
  have hlen : (persistLabels tid out).length = out.labels.length := by
    rw [persistLabels, labelRows_length]
    exact hperm.length_eq
  have hsorted : (persistLabels tid out).Pairwise
      (fun a b => b.confidence_score ≤ a.confidence_score) := by
    have hs := pySortDesc_sorted (fun g => g.confidence) out.labels
    rw [← hmap] at hs
    exact List.pairwise_map.mp hs
  have hget : ∀ (i : Nat) (h : i < (persistLabels tid out).length),
      ((persistLabels tid out).get ⟨i, h⟩).is_primary = decide (i < 5) := by
    intro i h
    have := labelRows_get_primary tid
      { external_factors := out.external_factors_considered, summary := out.summary }
      (pySortDesc (fun g => g.confidence) out.labels) 0 i h
    simpa using this
  refine ⟨hmap ▸ hperm, hsorted, ?_, hlen, ?_, hget, ?_, ?_⟩
  · intro c
    rw [hmap]
    exact pySortDesc_filter_eq (fun g => g.confidence) out.labels c
  · rw [persistLabels, labelRows_primary_count]
    simp [hperm.length_eq]
  · intro a ha b hb hap hbp
    obtain ⟨⟨i, hi⟩, rfl⟩ := List.get_of_mem ha
    obtain ⟨⟨j, hj⟩, rfl⟩ := List.get_of_mem hb
    have hia : i < 5 := by
      have := hget i hi
      rw [hap] at this
      simpa using this.symm
    have hjb : ¬ j < 5 := by
      have := hget j hj
      rw [hbp] at this
      simpa using this.symm
    have hij : (⟨i, hi⟩ : Fin (persistLabels tid out).length) <
        (⟨j, hj⟩ : Fin (persistLabels tid out).length) := by
      simp only [Fin.mk_lt_mk]
      omega
    exact List.pairwise_iff_get.mp hsorted _ _ hij
  · exact labelRows_meta tid _ 0 _

/-- C5: if the generation step raises, or validation rejects the batch,
the run ends with status `failed`, an error message of at most 500
characters, and the task's previously stored labels untouched. -/
theorem C5_failure_leaves_labels (stub : RunStub) (now : Nat) (task s : TaskState)
    (hrun : process_task_labeling stub now (some task) = some s)
    (hfail : (∃ e, stub.genResult = Except.error e) ∨
      (∃ out, stub.genResult = Except.ok out ∧ validate_labels out.labels = false)) :
    s.labels = task.labels ∧ s.labeling_status = LabelingStatus.failed ∧
      ∃ m, s.labeling_error = some m ∧ m.length ≤ 500 := by
  rcases hfail with ⟨e, he⟩ | ⟨out, ho, hv⟩
  · simp only [process_task_labeling, he, Option.some.injEq] at hrun
    subst hrun
    exact ⟨rfl, rfl, _, rfl, pyTruncate_length_le 500 e⟩
  · simp only [process_task_labeling, ho, hv, Bool.false_eq_true, if_false,
      Option.some.injEq] at hrun
    subst hrun
    exact ⟨rfl, rfl, _, rfl, pyTruncate_length_le 500 validationErrorMessage⟩

/-- C6: when the embedding sync raises after a successful persist, the run
still reports `completed`, the just-persisted labels are kept, and a
warning whose truncated collaborator message has at most 200 characters is
written into the error field. -/
theorem C6_embed_failure_degrades (stub : RunStub) (now : Nat) (task s : TaskState)
    (out : TaskLabelingOutput) (pe : String)
    (hg : stub.genResult = Except.ok out) (hv : validate_labels out.labels = true)
    (hp : stub.pineconeResult = Except.error pe)
    (hrun : process_task_labeling stub now (some task) = some s) :
    s.labeling_status = LabelingStatus.completed ∧
      s.labels = persistLabels task.id out ∧
      s.labeling_error =
        some ("Labels created but Pinecone failed: " ++ pyTruncate 200 pe) ∧
      (pyTruncate 200 pe).length ≤ 200 := by
  simp only [process_task_labeling, hg, hv, if_true, hp, Option.some.injEq] at hrun
  subst hrun
  exact ⟨rfl, rfl, rfl, pyTruncate_length_le 200 pe⟩

/-- C9: running the labeling procedure twice with the same stubbed
collaborator outcomes leaves exactly the label rows (names, categories,
confidences, primary flags) and status of a single run — the second run
replaces rather than merges. -/
theorem C9_relabel_idempotent (stub : RunStub) (n1 n2 : Nat) (db : Option TaskState) :
    (re_label_task stub n2 (process_task_labeling stub n1 db)).map
        (fun s => s.labels) =
      (process_task_labeling stub n1 db).map (fun s => s.labels) ∧
    (re_label_task stub n2 (process_task_labeling stub n1 db)).map
        (fun s => s.labeling_status) =
      (process_task_labeling stub n1 db).map (fun s => s.labeling_status) := by
  rcases db with _ | task
  · exact ⟨rfl, rfl⟩
  rcases hg : stub.genResult with e | out
  · constructor <;> simp [re_label_task, process_task_labeling, hg]
  by_cases hv : validate_labels out.labels = true
  · rcases hp : stub.pineconeResult with pe | u
    · constructor <;> simp [re_label_task, process_task_labeling, hg, hv, hp]
    · constructor <;> simp [re_label_task, process_task_labeling, hg, hv, hp]
  · constructor <;> simp [re_label_task, process_task_labeling, hg, hv]

theorem exOut_valid : validate_labels exOut.labels = true := by
  show validate_labels exBatch = true
  unfold validate_labels
  rw [if_neg (by decide), if_neg (by decide)]
  simp only [exBatch, List.all_cons, List.all_nil, Bool.and_eq_true,
    decide_eq_true_eq, Bool.and_true, and_true]
  norm_num

/-- C4 witness: persisting the validated 6-label batch `exBatch` stores a
permutation of it and marks exactly min(5, 6) = 5 labels primary. -/
theorem C4_persistence_ranking_witness :
    ((persistLabels 1 exOut).map toGen).Perm exOut.labels ∧
      ((persistLabels 1 exOut).filter fun l => l.is_primary).length = 5 := by
  have h := C4_persistence_ranking 1 exOut exOut_valid
  refine ⟨h.1, ?_⟩
  rw [h.2.2.2.2.1]
  decide

/-- C5 witness: a generation failure on a task with one stored label ends
`failed`, keeps that label, and truncates the message. -/
theorem C5_failure_leaves_labels_witness :
    exGenFailState.labels = exTaskState.labels ∧
      exGenFailState.labeling_status = LabelingStatus.failed ∧
      ∃ m, exGenFailState.labeling_error = some m ∧ m.length ≤ 500 :=
  C5_failure_leaves_labels exStubGenFail 0 exTaskState exGenFailState rfl
    (Or.inl ⟨_, rfl⟩)

/-- C6 witness: an embedding-sync failure after persisting `exBatch`
leaves the run `completed` with the new labels and a truncated warning. -/
theorem C6_embed_failure_degrades_witness :
    exPineFailState.labeling_status = LabelingStatus.completed ∧
      exPineFailState.labels = persistLabels exTaskState.id exOut ∧
      exPineFailState.labeling_error =
        some ("Labels created but Pinecone failed: " ++ pyTruncate 200 "index down") ∧
      (pyTruncate 200 "index down").length ≤ 200 :=
  C6_embed_failure_degrades exStubPineFail 0 exTaskState exPineFailState exOut
    "index down" rfl exOut_valid rfl (by
      have hg : exStubPineFail.genResult = Except.ok exOut := rfl
      have hp : exStubPineFail.pineconeResult = Except.error "index down" := rfl
      simp only [process_task_labeling, hg, hp, exOut_valid, if_true]
      rfl)

/-! ## Claim theorems: recommendation orchestration -/

set_option maxHeartbeats 2000000 in
/-- C7: exactly the active, non-completed, labeled candidates are scored;
zero scores are discarded; the survivors are stable-sorted descending by
score; and the first topK are returned, each carrying its engine score,
with no better-scoring survivor left out. -/
theorem C7_orchestration (uc : ExtractedContext) (tasks : List Task) (k : Nat) :
    (∀ x ∈ recommend_tasks uc tasks k,
      x.task ∈ tasks ∧ x.task.is_active = true ∧
        x.task.status ≠ TaskStatus.completed ∧ x.task.labels ≠ [] ∧
        0 < x.score ∧
        (x.score, x.matching_labels) = calculate_label_match_score x.task.labels uc) ∧
    (recommend_tasks uc tasks k).Pairwise (fun a b => b.score ≤ a.score) ∧
    (recommend_tasks uc tasks k).length = min k (scoredTasks uc tasks).length ∧
    (∀ c : ℚ, (pySortDesc (fun s => s.score) (scoredTasks uc tasks)).filter
        (fun y => decide (y.score = c)) =
      (scoredTasks uc tasks).filter (fun y => decide (y.score = c))) ∧
    (∀ y ∈ scoredTasks uc tasks, y ∈ recommend_tasks uc tasks k ∨
      ∀ x ∈ recommend_tasks uc tasks k, y.score ≤ x.score) := by
  simp only [recommend_tasks]
  refine ⟨?_, ?_, ?_, ?_, ?_⟩
  · intro x hx
    have hx1 : x ∈ pySortDesc (fun s => s.score) (scoredTasks uc tasks) :=
      (List.take_sublist k _).subset hx
    have hx2 : x ∈ scoredTasks uc tasks :=
      (pySortDesc_perm (fun s => s.score) _).subset hx1
    simp only [scoredTasks, List.mem_filterMap] at hx2
    obtain ⟨t, ht, hf⟩ := hx2
    obtain ⟨htask, hcond⟩ := List.mem_filter.mp ht
    simp only [Bool.and_eq_true] at hcond
    obtain ⟨hact, hst⟩ := hcond
    by_cases hl : t.labels.isEmpty = true
    · rw [if_pos hl] at hf
      exact absurd hf (by simp)
    · by_cases h0 : 0 < (calculate_label_match_score t.labels uc).1
      · have hf2 : some (ScoredTask.mk t (calculate_label_match_score t.labels uc).1
            (calculate_label_match_score t.labels uc).2) = some x := by
          simpa only [if_neg hl, if_pos h0] using hf
        have hx3 := Option.some.inj hf2
        subst hx3
        refine ⟨htask, hact, of_decide_eq_true hst, ?_, h0, rfl⟩
        intro hnil
        rw [hnil] at hl
        exact hl rfl
      · have : (none : Option ScoredTask) = some x := by
          simpa only [if_neg hl, if_neg h0] using hf
        cases this
  · exact (pySortDesc_sorted (fun s => s.score) (scoredTasks uc tasks)).take
  · rw [List.length_take,
      (pySortDesc_perm (fun s => s.score) (scoredTasks uc tasks)).length_eq]
  · intro c
    exact pySortDesc_filter_eq (fun s => s.score) (scoredTasks uc tasks) c
  · exact pySortDesc_take_optimal (fun s => s.score) (scoredTasks uc tasks) k

theorem exOffice_score :
    calculate_label_match_score [exOfficeLabel] exOfficeCtx = (9/10, ["office"]) := by
  norm_num [calculate_label_match_score, contextLabels, matchedPairs, exOfficeCtx,
    exOfficeLabel, pyLower, min_def]

/-- C7 witness: with topK = 3 over 10 positive-scoring candidates, exactly
3 recommendations come back, in descending score order. -/
theorem C7_orchestration_witness :
    (recommend_tasks exOfficeCtx exTasks10 3).length = 3 ∧
      (recommend_tasks exOfficeCtx exTasks10 3).Pairwise
        (fun a b => b.score ≤ a.score) := by
  have h := C7_orchestration exOfficeCtx exTasks10 3
  refine ⟨?_, h.2.1⟩
  rw [h.2.2.1]
  norm_num +decide [scoredTasks, candidateTasks, exTasks10, exCandidate, exOffice_score,
    List.filterMap_cons]

/-- C8: the recommendation read is not scoped to the authenticated user —
`recommend_tasks` has no user parameter and its query filters only on
activity and status, so adding a task owned by another user changes (and
here entirely determines) the result computed for user 1's request. -/
theorem C8_recommendation_reads_unscoped :
    exTaskMine.user_id = 1 ∧ exTaskOther.user_id = 2 ∧
    recommend_tasks exOfficeCtx [exTaskMine] 3 = [] ∧
    (recommend_tasks exOfficeCtx [exTaskMine, exTaskOther] 3).map (fun s => s.task) =
      [exTaskOther] := by
  refine ⟨rfl, rfl, ?_, ?_⟩
  · simp [recommend_tasks, scoredTasks, candidateTasks, exTaskMine, pySortDesc,
      pySortIdx]
  · norm_num +decide [recommend_tasks, scoredTasks, candidateTasks, exTaskMine,
      exTaskOther, exOffice_score, pySortDesc, pySortIdx, Function.comp,
      List.filterMap_cons]

end TasksAI
